import Mathlib

/-
Verification development for the Eyegaze-Module repository.

The tracker class `ONNXCalibratedGazeTracker` lives in
`src/Assets/Scripts/Research/onnx_calibrated_demo.py`; the `calibration`
module it imports (`GazeCalibrator`, `PolynomialMapper`, `GazeFilter`,
`create_gaze_filter`) is not part of the visible sources, so those pieces
are modelled from the design document (spec.md).  Real numbers of the
Python code are embedded as rationals; camera frames, face detection and
ONNX inference are external collaborators and enter the model as explicit
per-frame data.
-/

namespace EyeGaze

/-- Modelled from the spec: the `PolynomialMapper` of the missing
`calibration` module is a FittedMapper — method tag (implicitly
"polynomial"), polynomial degree and one coefficient vector per screen
axis (§3, §4.2). -/
structure PolynomialMapper where
  degree : ℕ
  coeffs_x : List ℚ
  coeffs_y : List ℚ
deriving DecidableEq

/-- Modelled from the spec: the freshly constructed, not-yet-fit mapper
produced by the `PolynomialMapper()` call in `load_calibration`. -/
def PolynomialMapper.init : PolynomialMapper :=
  { degree := 2, coeffs_x := [], coeffs_y := [] }

/-- Modelled from the spec: the canonical multivariate polynomial basis;
for degree 2 it is exactly {1, pitch, yaw, pitch^2, pitch*yaw, yaw^2}
(§4.2), listed by total degree. -/
def polyFeatures (degree : ℕ) (p y : ℚ) : List ℚ :=
  (List.range (degree + 1)).flatMap (fun d =>
    (List.range (d + 1)).map (fun j => p ^ (d - j) * y ^ j))

/-- Dot product of two coefficient/feature lists. -/
def dotList (a b : List ℚ) : ℚ :=
  (List.zipWith (fun u v => u * v) a b).sum

/-- Modelled from the spec: `predict` evaluates both fitted polynomials on
a gaze angle and returns the resulting screen point; pure, no side
effects (§4.2). -/
def PolynomialMapper.predict (m : PolynomialMapper) (g : ℚ × ℚ) : ℚ × ℚ :=
  (dotList m.coeffs_x (polyFeatures m.degree g.1 g.2),
   dotList m.coeffs_y (polyFeatures m.degree g.1 g.2))

/-- Modelled from the spec: the persisted mapper file is a structured
document with fields `method`, `degree`, `coeffs_x`, `coeffs_y`; each
field may be absent in a malformed file (§6). -/
structure MapperFile where
  method : Option String
  degree : Option ℕ
  coeffs_x : Option (List ℚ)
  coeffs_y : Option (List ℚ)
deriving DecidableEq

/-- Modelled from the spec: `save` serializes method tag, degree and both
coefficient vectors (§4.2, §6). -/
def PolynomialMapper.save (m : PolynomialMapper) : MapperFile :=
  { method := some ("polynomial"),
    degree := some m.degree,
    coeffs_x := some m.coeffs_x,
    coeffs_y := some m.coeffs_y }

/-- Modelled from the spec: `load` validates presence of every field and
the method tag; any mismatch is a load error (`none`, the explicit
MalformedCalibrationFile failure of §7) rather than a best-effort partial
load (§6). -/
def PolynomialMapper.loadFile (f : MapperFile) : Option PolynomialMapper :=
  match f.method, f.degree, f.coeffs_x, f.coeffs_y with
  | some mth, some d, some cx, some cy =>
      if mth = ("polynomial") then some { degree := d, coeffs_x := cx, coeffs_y := cy }
      else none
  | _, _, _, _ => none

/-- Modelled from the spec: the TemporalFilter (`GazeFilter` in the
missing `calibration` module) smooths one (x, y) stream; its state is the
last smoothed pair, absent right after construction or `reset` (§4.3).
`alpha` is the profile's smoothing strength. -/
structure GazeFilter where
  alpha : ℚ
  state : Option (ℚ × ℚ)
deriving DecidableEq

/-- Modelled from the spec: `reset()` discards internal state (§4.3). -/
def GazeFilter.reset (f : GazeFilter) : GazeFilter :=
  { f with state := none }

/-- Modelled from the spec: `filter(x, y)` consumes one sample and returns
the smoothed pair, updating state; with no prior state it bootstraps
directly from the first observation and returns it unchanged (§4.3). -/
def GazeFilter.filter (f : GazeFilter) (x y : ℚ) : (ℚ × ℚ) × GazeFilter :=
  match f.state with
  | none => ((x, y), { f with state := some (x, y) })
  | some s =>
      ((s.1 + f.alpha * (x - s.1), s.2 + f.alpha * (y - s.2)),
       { f with state := some (s.1 + f.alpha * (x - s.1), s.2 + f.alpha * (y - s.2)) })

/-- Modelled from the spec: `create_gaze_filter(preset)` builds a fresh
filter from a named response profile in {smooth, balanced, responsive,
child}; each profile fixes a distinct smoothing strength (§4.3); the
numeric strengths are representative, the spec fixes only their ordering
role.  A fresh filter has no state. -/
def create_gaze_filter (preset : String) : GazeFilter :=
  if preset = ("smooth") then { alpha := 1 / 10, state := none }
  else if preset = ("responsive") then { alpha := 3 / 5, state := none }
  else if preset = ("child") then { alpha := 1 / 2, state := none }
  else { alpha := 3 / 10, state := none }

/-- One camera frame as the tracker sees it: its pixel dimensions
(`frame.shape[1]` and `frame.shape[0]`), the face boxes the external
detector returns for it (`detect_faces`, each with a score), and the
(pitch, yaw) the external ONNX model outputs for its face crop.
Detection and inference are external collaborators, so their per-frame
results are data of the frame. -/
structure Frame where
  width : ℤ
  height : ℤ
  faces : List ((ℤ × ℤ × ℤ × ℤ) × ℚ)
  inference : ℚ × ℚ
deriving DecidableEq

/-- State of `ONNXCalibratedGazeTracker` (the fields the core logic
touches; the ONNX session, detector and preprocessing constants are
external). -/
structure Tracker where
  screen_width : ℤ
  screen_height : ℤ
  mapper : Option PolynomialMapper
  is_calibrated : Bool
  gaze_filter : Option GazeFilter
  screen_filter : Option GazeFilter
  filter_enabled : Bool
  current_pitch : Option ℚ
  current_yaw : Option ℚ
  current_bbox : Option (ℤ × ℤ × ℤ × ℤ)
deriving DecidableEq

/-- `enable_filter`: two fresh filters from the same preset, one for the
gaze stream and one for the screen stream (lines 99-104). -/
def Tracker.enable_filter (t : Tracker) (preset : String) : Tracker :=
  { t with gaze_filter := some (create_gaze_filter preset),
           screen_filter := some (create_gaze_filter preset),
           filter_enabled := true }

/-- `disable_filter`: turn filtering off and reset both filters if present
(lines 106-113). -/
def Tracker.disable_filter (t : Tracker) : Tracker :=
  { t with filter_enabled := false,
           gaze_filter := t.gaze_filter.map GazeFilter.reset,
           screen_filter := t.screen_filter.map GazeFilter.reset }

/-- `np.clip(v, lo, hi)` on one component: `min(hi, max(v, lo))`. -/
def clip1 (v lo hi : ℚ) : ℚ := min hi (max v lo)

/-- The clamp of `process_frame` line 187:
`np.clip(screen_point, [0, 0], [screen_width - 1, screen_height - 1])`. -/
def clampPoint (w h : ℤ) (p : ℚ × ℚ) : ℚ × ℚ :=
  (clip1 p.1 0 ((w : ℚ) - 1), clip1 p.2 0 ((h : ℚ) - 1))

/-- Lines 170-174 of `process_frame`: if filtering is enabled and a gaze
filter exists, run it on the raw (pitch, yaw), store the filtered values
in `current_pitch` / `current_yaw`, and hand the (possibly filtered) gaze
on.  Expects `current_pitch` / `current_yaw` already set to the raw
reading. -/
def Tracker.gazeStage (t : Tracker) (raw : ℚ × ℚ) : (ℚ × ℚ) × Tracker :=
  if t.filter_enabled then
    match t.gaze_filter with
    | some gf =>
        ((gf.filter raw.1 raw.2).1,
         { t with gaze_filter := some (gf.filter raw.1 raw.2).2,
                  current_pitch := some (gf.filter raw.1 raw.2).1.1,
                  current_yaw := some (gf.filter raw.1 raw.2).1.2 })
    | none => (raw, t)
  else (raw, t)

/-- Lines 176-188 of `process_frame`: if calibrated and a mapper exists,
predict the screen point from the filtered gaze, optionally smooth it with
the screen filter, and clamp last; otherwise the screen point stays
`None`. -/
def Tracker.mapStage (t : Tracker) (pg : ℚ × ℚ) : Option (ℚ × ℚ) × Tracker :=
  if t.is_calibrated then
    match t.mapper with
    | some m =>
        if t.filter_enabled then
          match t.screen_filter with
          | some sf =>
              (some (clampPoint t.screen_width t.screen_height
                       (sf.filter (m.predict pg).1 (m.predict pg).2).1),
               { t with screen_filter := some (sf.filter (m.predict pg).1 (m.predict pg).2).2 })
          | none =>
              (some (clampPoint t.screen_width t.screen_height (m.predict pg)), t)
        else
          (some (clampPoint t.screen_width t.screen_height (m.predict pg)), t)
    | none => (none, t)
  else (none, t)

/-- `process_frame` (lines 138-190).  Returns ((gaze, screen_point),
updated tracker): `gaze` is `None` on the failure paths (`return None,
None`) and otherwise the pair `(current_pitch, current_yaw)` read back
from the instance fields; `screen_point` is the clamped mapped point or
`None`.  The three `current_*` fields are cleared at the start of every
call; the first detected face box is clipped to the frame and rejected
when degenerate. -/
def Tracker.process_frame (t : Tracker) (frame : Frame) :
    (Option (Option ℚ × Option ℚ) × Option (ℚ × ℚ)) × Tracker :=
  let t0 := { t with current_pitch := none, current_yaw := none,
                     current_bbox := (none : Option (ℤ × ℤ × ℤ × ℤ)) }
  match frame.faces with
  | [] => ((none, none), t0)
  | (box, _) :: _ =>
      let x_min := max 0 box.1
      let y_min := max 0 box.2.1
      let x_max := min frame.width box.2.2.1
      let y_max := min frame.height box.2.2.2
      if x_max ≤ x_min ∨ y_max ≤ y_min then ((none, none), t0)
      else
        let raw := frame.inference
        let t1 := { t0 with current_pitch := some raw.1,
                            current_yaw := some raw.2,
                            current_bbox := some (x_min, y_min, x_max, y_max) }
        let g2 := t1.gazeStage raw
        let m3 := g2.2.mapStage g2.1
        ((some (m3.2.current_pitch, m3.2.current_yaw), m3.1), m3.2)

/-- `get_current_gaze` (lines 192-195): the pair of instance fields when a
pitch is present, else `None`. -/
def Tracker.get_current_gaze (t : Tracker) : Option (ℚ × Option ℚ) :=
  match t.current_pitch with
  | some p => some (p, t.current_yaw)
  | none => none

/-- Outcome of one `cap.read()` call: failure, or a frame (already
flipped horizontally, as `gaze_callback` flips before processing; the
frame's detection/inference data describe the flipped image). -/
inductive CamResult where
  | fail : CamResult
  | frame : Frame → CamResult
deriving DecidableEq

/-- The `gaze_callback` closure of `run_calibration` (lines 208-214):
read a frame; on camera failure return `None`; otherwise process the
(flipped) frame and return `get_current_gaze()`. -/
def gaze_callback (t : Tracker) (cam : CamResult) : Option (ℚ × Option ℚ) × Tracker :=
  match cam with
  | CamResult.fail => (none, t)
  | CamResult.frame f =>
      let r := t.process_frame f
      (r.2.get_current_gaze, r.2)

/-- Result of a `load_calibration` call: returned `True`, returned
`False` (file missing), or an exception escaping the call (malformed
file), carrying the tracker state left behind in each case. -/
inductive LoadResult where
  | ok : Tracker → LoadResult
  | notFound : Tracker → LoadResult
  | error : Tracker → LoadResult
deriving DecidableEq

/-- The value a `load_calibration` call returns: `none` when an exception
escapes instead of a return. -/
def LoadResult.returnValue : LoadResult → Option Bool
  | LoadResult.ok _ => some true
  | LoadResult.notFound _ => some false
  | LoadResult.error _ => none

/-- The tracker state after a `load_calibration` call, whichever way it
ended. -/
def LoadResult.state : LoadResult → Tracker
  | LoadResult.ok t => t
  | LoadResult.notFound t => t
  | LoadResult.error t => t

/-- `load_calibration` (lines 227-233).  The file system is a map from
paths to file contents (`none` = `os.path.exists` is false).  When the
file exists the code first replaces `self.mapper` with a fresh
`PolynomialMapper()` and then loads into it; a malformed file makes the
load raise after the replacement but before `is_calibrated` is set. -/
def Tracker.load_calibration (t : Tracker) (fs : String → Option MapperFile)
    (filepath : String) : LoadResult :=
  match fs filepath with
  | some file =>
      match PolynomialMapper.loadFile file with
      | some m => LoadResult.ok { t with mapper := some m, is_calibrated := true }
      | none => LoadResult.error { t with mapper := some PolynomialMapper.init }
  | none => LoadResult.notFound t

/-- `save_calibration` (lines 223-225): the file written, if any. -/
def Tracker.save_calibration (t : Tracker) : Option MapperFile :=
  t.mapper.map PolynomialMapper.save

/-- `run_calibration` (lines 197-221).  The calibration session itself
lives in the missing `calibration` module; its boolean outcome and the
`create_mapper(method='polynomial', degree=2)` factory enter as
parameters.  The tracker installs a freshly fit mapper and sets
`is_calibrated` only when the session reports success, and returns the
session's boolean. -/
def Tracker.run_calibration (t : Tracker) (sessionSuccess : Bool)
    (create_mapper : Unit → PolynomialMapper) : Bool × Tracker :=
  if sessionSuccess then
    (true, { t with mapper := some (create_mapper ()), is_calibrated := true })
  else
    (false, t)

/-- The `GazeCalibrator` construction parameters used by
`run_calibration` (lines 199-206). -/
structure GazeCalibrator where
  screen_width : ℤ
  screen_height : ℤ
  num_points : ℕ
  margin : ℚ
  samples_per_point : ℕ
  sample_delay : ℚ
deriving DecidableEq

/-- The calibrator `run_calibration` constructs: the tracker's screen
size with num_points=9, margin=0.15, samples_per_point=30,
sample_delay=0.8. -/
def Tracker.calibrator (t : Tracker) : GazeCalibrator :=
  { screen_width := t.screen_width, screen_height := t.screen_height,
    num_points := 9, margin := 15 / 100,
    samples_per_point := 30, sample_delay := 8 / 10 }

/-- Integer square root (largest k with k * k ≤ n), written so that it
evaluates by plain structural computation. -/
def gridSide (n : ℕ) : ℕ :=
  ((List.range (n + 1)).filter (fun k => k * k ≤ n)).length - 1

/-- Modelled from the spec: target generation of the missing
`GazeCalibrator` — a sqrt(num_points) x sqrt(num_points) grid inset by
`margin` fraction of each screen dimension from both edges, enumerated
row-major from top-left to bottom-right (§4.1). -/
def GazeCalibrator.targets (c : GazeCalibrator) : List (ℚ × ℚ) :=
  (List.range (gridSide c.num_points)).flatMap (fun row =>
    (List.range (gridSide c.num_points)).map (fun col =>
      (c.margin * (c.screen_width : ℚ) +
         (col : ℚ) * ((1 - 2 * c.margin) * (c.screen_width : ℚ)) /
           ((gridSide c.num_points - 1 : ℕ) : ℚ),
       c.margin * (c.screen_height : ℚ) +
         (row : ℚ) * ((1 - 2 * c.margin) * (c.screen_height : ℚ)) /
           ((gridSide c.num_points - 1 : ℕ) : ℚ))))

/-- A fitted sample mapper used in concrete checks. -/
def sampleMapper : PolynomialMapper :=
  { degree := 2
    coeffs_x := [100, 2000, 0, 0, 0, 0]
    coeffs_y := [50, 0, 1000, 0, 0, 0] }

/-- A calibrated 1920x1080 tracker with both filters enabled and stale
current-state fields, used in concrete checks. -/
def sampleTracker : Tracker :=
  { screen_width := 1920
    screen_height := 1080
    mapper := some sampleMapper
    is_calibrated := true
    gaze_filter := some (create_gaze_filter ("balanced"))
    screen_filter := some (create_gaze_filter ("balanced"))
    filter_enabled := true
    current_pitch := some 99
    current_yaw := some 98
    current_bbox := some (1, 2, 3, 4) }

/-- A frame with one valid face detection. -/
def sampleFrame : Frame :=
  { width := 640
    height := 480
    faces := [((10, 20, 110, 120), 1)]
    inference := (1 / 10, 2 / 10) }

/-- A malformed persisted mapper file: the method tag is absent. -/
def badFile : MapperFile :=
  { method := none
    degree := some 2
    coeffs_x := some [1, 2, 3, 4, 5, 6]
    coeffs_y := some [1, 2, 3, 4, 5, 6] }

/-- A one-file file system holding only the malformed file. -/
def badFs : String → Option MapperFile :=
  fun p => if p = ("calib.json") then some badFile else none

/-- A file system with no files at all. -/
def emptyFs : String → Option MapperFile :=
  fun _ => none

/-- A frame in which the detector found no face. -/
def emptyFrame : Frame :=
  { width := 640
    height := 480
    faces := []
    inference := (1 / 10, 2 / 10) }

attribute [local semireducible] Rat.add Rat.mul Rat.sub Rat.inv

/-- Component clamp stays between its bounds whenever they are ordered. -/
theorem clip1_bounds (v lo hi : ℚ) (h : lo ≤ hi) :
    lo ≤ clip1 v lo hi ∧ clip1 v lo hi ≤ hi :=
  ⟨le_min h (le_max_right v lo), min_le_left hi (max v lo)⟩

/-- The screen clamp keeps both coordinates inside the visible bounds for
any positive screen size. -/
theorem clampPoint_bounds (w h : ℤ) (p : ℚ × ℚ) (hw : 1 ≤ w) (hh : 1 ≤ h) :
    0 ≤ (clampPoint w h p).1 ∧ (clampPoint w h p).1 ≤ (w : ℚ) - 1 ∧
    0 ≤ (clampPoint w h p).2 ∧ (clampPoint w h p).2 ≤ (h : ℚ) - 1 := by
  have hw1 : (0 : ℚ) ≤ (w : ℚ) - 1 := by
    have : (1 : ℚ) ≤ (w : ℚ) := by exact_mod_cast hw
    linarith
  have hh1 : (0 : ℚ) ≤ (h : ℚ) - 1 := by
    have : (1 : ℚ) ≤ (h : ℚ) := by exact_mod_cast hh
    linarith
  exact ⟨(clip1_bounds p.1 0 _ hw1).1, (clip1_bounds p.1 0 _ hw1).2,
         (clip1_bounds p.2 0 _ hh1).1, (clip1_bounds p.2 0 _ hh1).2⟩

/-- A filter with empty state bootstraps from the first observation. -/
theorem GazeFilter.filter_bootstrap (f : GazeFilter) (x y : ℚ)
    (h : f.state = none) :
    f.filter x y = ((x, y), { f with state := some (x, y) }) := by
  unfold GazeFilter.filter
  rw [h]

/-- A freshly created filter carries no state, whatever the preset. -/
theorem create_gaze_filter_state (p : String) :
    (create_gaze_filter p).state = none := by
  unfold create_gaze_filter
  split
  · rfl
  · split
    · rfl
    · split <;> rfl

/-- C3: `run_calibration` returns the session's boolean; on failure the
tracker — its `mapper` and `is_calibrated` fields included — is exactly
what it was before the call and the result does not depend on the mapper
factory at all, so no mapper is fit; on success the freshly fit mapper is
installed and `is_calibrated` becomes true. -/
theorem run_calibration_success_gates_mapper (t : Tracker)
    (cm cm2 : Unit → PolynomialMapper) (s : Bool) :
    (t.run_calibration s cm).1 = s ∧
    t.run_calibration false cm = (false, t) ∧
    t.run_calibration false cm = t.run_calibration false cm2 ∧
    t.run_calibration true cm =
      (true, { t with mapper := some (cm ()), is_calibrated := true }) := by
  unfold Tracker.run_calibration
  cases s <;> simp

/-- C6: save→load round-trip — loading the file produced by `save`
succeeds and yields a mapper whose `predict` agrees with the original
mapper on every gaze-angle input. -/
theorem mapper_save_load_roundtrip_predict (m : PolynomialMapper) (g : ℚ × ℚ) :
    ∃ m2, PolynomialMapper.loadFile m.save = some m2 ∧
      m2.predict g = m.predict g := by
  refine ⟨m, ?_, rfl⟩
  unfold PolynomialMapper.loadFile PolynomialMapper.save
  simp

/-- C7: the very first `filter` call after construction (any preset) or
after `reset()` returns exactly the input pair. -/
theorem filter_first_call_returns_input (preset : String) (f : GazeFilter)
    (x y : ℚ) :
    ((create_gaze_filter preset).filter x y).1 = (x, y) ∧
    ((f.reset).filter x y).1 = (x, y) := by
  constructor
  · rw [GazeFilter.filter_bootstrap _ x y (create_gaze_filter_state preset)]
  · rfl

/-- C8: with a 1920x1080 screen, margin 0.15 and a 3x3 grid, the
calibrator of `run_calibration` generates targets with x in
{288, 960, 1632} and y in {162, 540, 918}, enumerated row-major from
top-left to bottom-right. -/
theorem calibration_targets_grid_1920x1080 :
    (sampleTracker.calibrator).targets =
      [(288, 162), (960, 162), (1632, 162),
       (288, 540), (960, 540), (1632, 540),
       (288, 918), (960, 918), (1632, 918)] := by
  decide

/-- C9: `load_calibration` on a path whose file does not exist returns
`False` without attempting a load, leaving the whole tracker — `mapper`
and `is_calibrated` included — exactly as it was. -/
theorem load_calibration_missing_file_no_change (t : Tracker)
    (fs : String → Option MapperFile) (path : String) (h : fs path = none) :
    t.load_calibration fs path = LoadResult.notFound t ∧
    (t.load_calibration fs path).returnValue = some false ∧
    (t.load_calibration fs path).state = t := by
  unfold Tracker.load_calibration
  rw [h]
  exact ⟨rfl, rfl, rfl⟩

/-- Witness for C9 at a concrete tracker and empty file system. -/
theorem load_calibration_missing_file_no_change_witness :
    emptyFs ("x.json") = none ∧
    sampleTracker.load_calibration emptyFs ("x.json") =
      LoadResult.notFound sampleTracker :=
  ⟨rfl, (load_calibration_missing_file_no_change sampleTracker emptyFs
          ("x.json") rfl).1⟩

/-- C1 counterexample: a concrete failed `load_calibration` call — the
file exists but is malformed, the load raises — after which the tracker's
mapper is NOT the mapper held before the call. -/
theorem load_calibration_failed_mapper_changed_counterexample :
    (sampleTracker.load_calibration badFs ("calib.json")).returnValue ≠ some true ∧
    ((sampleTracker.load_calibration badFs ("calib.json")).state).mapper ≠
      sampleTracker.mapper := by
  decide

/-- C1 amended: when the file exists but is malformed, `load_calibration`
fails with an escaping error before `is_calibrated` is set, but by then
`tracker.mapper` has already been replaced by a fresh unfit
`PolynomialMapper` — the previous in-memory mapper is preserved only on
the missing-file path. -/
theorem load_calibration_malformed_replaces_mapper (t : Tracker)
    (fs : String → Option MapperFile) (path : String) (file : MapperFile)
    (h1 : fs path = some file) (h2 : PolynomialMapper.loadFile file = none) :
    t.load_calibration fs path =
      LoadResult.error { t with mapper := some PolynomialMapper.init } := by
  unfold Tracker.load_calibration
  rw [h1]
  dsimp only
  rw [h2]

/-- Witness for the amended C1 at a concrete tracker and malformed file. -/
theorem load_calibration_malformed_replaces_mapper_witness :
    badFs ("calib.json") = some badFile ∧
    PolynomialMapper.loadFile badFile = none ∧
    sampleTracker.load_calibration badFs ("calib.json") =
      LoadResult.error
        { sampleTracker with mapper := some PolynomialMapper.init } :=
  ⟨by decide, by decide,
   load_calibration_malformed_replaces_mapper sampleTracker badFs
     ("calib.json") badFile (by decide) (by decide)⟩

/-- Whenever `mapStage` produces a screen point, that point is the clamp
of something. -/
theorem mapStage_some (t : Tracker) (pg : ℚ × ℚ) (sp : ℚ × ℚ)
    (h : (t.mapStage pg).1 = some sp) :
    ∃ q, sp = clampPoint t.screen_width t.screen_height q := by
  unfold Tracker.mapStage at h
  split at h
  · split at h
    · split at h
      · split at h
        · exact ⟨_, (Option.some.injEq _ _ ▸ h.symm : _)⟩
        · exact ⟨_, (Option.some.injEq _ _ ▸ h.symm : _)⟩
      · exact ⟨_, (Option.some.injEq _ _ ▸ h.symm : _)⟩
    · simp at h
  · simp at h

/-- The gaze-filter stage never touches the screen dimensions. -/
theorem gazeStage_screen_dims (t : Tracker) (raw : ℚ × ℚ) :
    (t.gazeStage raw).2.screen_width = t.screen_width ∧
    (t.gazeStage raw).2.screen_height = t.screen_height := by
  unfold Tracker.gazeStage
  split
  · split <;> exact ⟨rfl, rfl⟩
  · exact ⟨rfl, rfl⟩

/-- C2: whenever `process_frame` returns a screen point at all, both of
its coordinates lie inside the visible screen bounds
[0, screen_width - 1] x [0, screen_height - 1], for any positive screen
size and regardless of what the mapper predicted. -/
theorem process_frame_screen_point_in_bounds (t : Tracker) (frame : Frame)
    (g : Option (Option ℚ × Option ℚ)) (sp : ℚ × ℚ)
    (hw : 1 ≤ t.screen_width) (hh : 1 ≤ t.screen_height)
    (hres : (t.process_frame frame).1 = (g, some sp)) :
    0 ≤ sp.1 ∧ sp.1 ≤ (t.screen_width : ℚ) - 1 ∧
    0 ≤ sp.2 ∧ sp.2 ≤ (t.screen_height : ℚ) - 1 := by
  unfold Tracker.process_frame at hres
  split at hres
  · simp at hres
  · dsimp only at hres
    split at hres
    · simp at hres
    · have h2 := congrArg Prod.snd hres
      dsimp only at h2
      obtain ⟨q, hq⟩ := mapStage_some _ _ _ h2
      rw [(gazeStage_screen_dims _ _).1, (gazeStage_screen_dims _ _).2] at hq
      dsimp only at hq
      subst hq
      exact clampPoint_bounds t.screen_width t.screen_height q hw hh

/-- Witness for C2 at the sample tracker and frame: the mapped point is
(300, 250) and the bounds hold for a 1920x1080 screen. -/
theorem process_frame_screen_point_in_bounds_witness :
    (1 ≤ sampleTracker.screen_width) ∧ (1 ≤ sampleTracker.screen_height) ∧
    (sampleTracker.process_frame sampleFrame).1 =
      (some (some (1 / 10), some (2 / 10)), some ((300 : ℚ), (250 : ℚ))) ∧
    (0 ≤ ((300 : ℚ), (250 : ℚ)).1 ∧
     ((300 : ℚ), (250 : ℚ)).1 ≤ (sampleTracker.screen_width : ℚ) - 1 ∧
     0 ≤ ((300 : ℚ), (250 : ℚ)).2 ∧
     ((300 : ℚ), (250 : ℚ)).2 ≤ (sampleTracker.screen_height : ℚ) - 1) :=
  ⟨by decide, by decide, by decide,
   process_frame_screen_point_in_bounds sampleTracker sampleFrame
     (some (some (1 / 10), some (2 / 10))) ((300 : ℚ), (250 : ℚ))
     (by decide) (by decide) (by decide)⟩

/-- C10: on every frame in which detection fails — no face, or a face box
degenerate after clipping to the frame — `process_frame` returns
(None, None) and leaves the tracker with all three `current_*` fields
cleared, so a subsequent `get_current_gaze()` returns `None` instead of
the previous frame's reading. -/
theorem process_frame_failure_clears_state (t : Tracker) (frame : Frame)
    (h : frame.faces = [] ∨ ∃ box sc rest, frame.faces = (box, sc) :: rest ∧
          (min frame.width box.2.2.1 ≤ max 0 box.1 ∨
           min frame.height box.2.2.2 ≤ max 0 box.2.1)) :
    t.process_frame frame =
      ((none, none),
       { t with current_pitch := none
                current_yaw := none
                current_bbox := none }) ∧
    (t.process_frame frame).2.get_current_gaze = none := by
  have h1 : t.process_frame frame =
      ((none, none),
       { t with current_pitch := none
                current_yaw := none
                current_bbox := none }) := by
    unfold Tracker.process_frame
    rcases h with h | ⟨box, sc, rest, hf, hd⟩
    · rw [h]
    · rw [hf]
      dsimp only
      rw [if_pos hd]
  exact ⟨h1, by rw [h1]; rfl⟩

/-- Witness for C10 at the sample tracker (which holds stale readings)
and a frame with no face. -/
theorem process_frame_failure_clears_state_witness :
    (emptyFrame.faces = [] ∨ ∃ box sc rest,
      emptyFrame.faces = (box, sc) :: rest ∧
      (min emptyFrame.width box.2.2.1 ≤ max 0 box.1 ∨
       min emptyFrame.height box.2.2.2 ≤ max 0 box.2.1)) ∧
    (sampleTracker.process_frame emptyFrame =
      ((none, none),
       { sampleTracker with current_pitch := none
                            current_yaw := none
                            current_bbox := none }) ∧
     (sampleTracker.process_frame emptyFrame).2.get_current_gaze = none) :=
  ⟨Or.inl rfl,
   process_frame_failure_clears_state sampleTracker emptyFrame (Or.inl rfl)⟩

/-- C5: the gaze sample source handed to the calibration session is a
zero-argument operation returning an explicit absent reading (`None`)
whenever the camera read fails or no usable face was detected, and
otherwise a full (pitch, yaw) pair computed freshly from this frame's
inference — never the stale reading held before the call. -/
theorem gaze_callback_fresh_or_none (t : Tracker) (f : Frame)
    (box : ℤ × ℤ × ℤ × ℤ) (sc : ℚ) (rest : List ((ℤ × ℤ × ℤ × ℤ) × ℚ)) :
    (gaze_callback t CamResult.fail).1 = none ∧
    (f.faces = [] → (gaze_callback t (CamResult.frame f)).1 = none) ∧
    (f.faces = (box, sc) :: rest →
      (min f.width box.2.2.1 ≤ max 0 box.1 ∨
       min f.height box.2.2.2 ≤ max 0 box.2.1) →
      (gaze_callback t (CamResult.frame f)).1 = none) ∧
    (f.faces = (box, sc) :: rest →
      ¬ (min f.width box.2.2.1 ≤ max 0 box.1 ∨
         min f.height box.2.2.2 ≤ max 0 box.2.1) →
      (gaze_callback t (CamResult.frame f)).1 =
        some (((t.gazeStage f.inference).1).1,
              some (((t.gazeStage f.inference).1).2))) := by
  refine ⟨rfl, ?_, ?_, ?_⟩
  · intro hf
    unfold gaze_callback
    dsimp only
    unfold Tracker.process_frame
    rw [hf]
    rfl
  · intro hf hd
    unfold gaze_callback
    dsimp only
    unfold Tracker.process_frame
    rw [hf]
    dsimp only
    rw [if_pos hd]
    rfl
  · intro hf hnd
    unfold gaze_callback
    dsimp only
    unfold Tracker.process_frame
    rw [hf]
    dsimp only
    rw [if_neg hnd]
    dsimp only
    unfold Tracker.gazeStage Tracker.mapStage Tracker.get_current_gaze
    cases hE : t.filter_enabled <;> cases hG : t.gaze_filter <;>
      cases hC : t.is_calibrated <;> cases hMm : t.mapper <;>
      cases hSf : t.screen_filter <;> simp [hE, hG, hC, hMm, hSf]

/-- Witness for C5 at the sample tracker and a frame with one valid
face: the callback returns the fresh filtered reading of this frame. -/
theorem gaze_callback_fresh_or_none_witness :
    sampleFrame.faces = (((10, 20, 110, 120) : ℤ × ℤ × ℤ × ℤ), (1 : ℚ)) :: [] ∧
    ¬ (min sampleFrame.width (110 : ℤ) ≤ max 0 (10 : ℤ) ∨
       min sampleFrame.height (120 : ℤ) ≤ max 0 (20 : ℤ)) ∧
    (gaze_callback sampleTracker (CamResult.frame sampleFrame)).1 =
      some (((sampleTracker.gazeStage sampleFrame.inference).1).1,
            some (((sampleTracker.gazeStage sampleFrame.inference).1).2)) :=
  ⟨rfl, by decide,
   (gaze_callback_fresh_or_none sampleTracker sampleFrame
       ((10, 20, 110, 120) : ℤ × ℤ × ℤ × ℤ) (1 : ℚ) []).2.2.2
     rfl (by decide)⟩

/-- C4: `enable_filter` installs two separate fresh filters, and on a
successfully detected frame the pipeline runs in the fixed order — the
gaze filter consumes the raw (pitch, yaw), `mapper.predict` consumes the
filtered gaze, the screen filter consumes the predicted point, and the
clamp is applied last; the updated gaze-filter state depends only on the
prior gaze-filter state and the raw gaze, and the updated screen-filter
state only on the prior screen-filter state and the predicted point. -/
theorem process_frame_filter_pipeline_order (t : Tracker) (frame : Frame)
    (gf sf : GazeFilter) (m : PolynomialMapper)
    (box : ℤ × ℤ × ℤ × ℤ) (sc : ℚ) (rest : List ((ℤ × ℤ × ℤ × ℤ) × ℚ))
    (preset : String)
    (hE : t.filter_enabled = true) (hG : t.gaze_filter = some gf)
    (hS : t.screen_filter = some sf) (hC : t.is_calibrated = true)
    (hM : t.mapper = some m) (hF : frame.faces = (box, sc) :: rest)
    (hnd : ¬ (min frame.width box.2.2.1 ≤ max 0 box.1 ∨
              min frame.height box.2.2.2 ≤ max 0 box.2.1)) :
    ((t.enable_filter preset).gaze_filter = some (create_gaze_filter preset) ∧
     (t.enable_filter preset).screen_filter = some (create_gaze_filter preset) ∧
     (t.enable_filter preset).filter_enabled = true) ∧
    t.process_frame frame =
      ((some (some (gf.filter frame.inference.1 frame.inference.2).1.1,
              some (gf.filter frame.inference.1 frame.inference.2).1.2),
        some (clampPoint t.screen_width t.screen_height
          (sf.filter
            (m.predict (gf.filter frame.inference.1 frame.inference.2).1).1
            (m.predict (gf.filter frame.inference.1 frame.inference.2).1).2).1)),
       { t with
          current_pitch := some (gf.filter frame.inference.1 frame.inference.2).1.1
          current_yaw := some (gf.filter frame.inference.1 frame.inference.2).1.2
          current_bbox := some (max 0 box.1, max 0 box.2.1,
                                min frame.width box.2.2.1,
                                min frame.height box.2.2.2)
          gaze_filter := some (gf.filter frame.inference.1 frame.inference.2).2
          screen_filter := some (sf.filter
            (m.predict (gf.filter frame.inference.1 frame.inference.2).1).1
            (m.predict (gf.filter frame.inference.1 frame.inference.2).1).2).2 }) := by
  refine ⟨⟨rfl, rfl, rfl⟩, ?_⟩
  unfold Tracker.process_frame
  rw [hF]
  dsimp only
  rw [if_neg hnd]
  unfold Tracker.gazeStage Tracker.mapStage
  simp [hE, hG, hS, hC, hM]

/-- Witness for C4 at the sample tracker and frame, with the balanced
preset filters it holds. -/
theorem process_frame_filter_pipeline_order_witness :
    sampleTracker.filter_enabled = true ∧
    sampleTracker.gaze_filter = some (create_gaze_filter ("balanced")) ∧
    sampleTracker.screen_filter = some (create_gaze_filter ("balanced")) ∧
    sampleTracker.is_calibrated = true ∧
    sampleTracker.mapper = some sampleMapper ∧
    sampleFrame.faces = (((10, 20, 110, 120) : ℤ × ℤ × ℤ × ℤ), (1 : ℚ)) :: [] ∧
    ¬ (min sampleFrame.width (110 : ℤ) ≤ max 0 (10 : ℤ) ∨
       min sampleFrame.height (120 : ℤ) ≤ max 0 (20 : ℤ)) ∧
    (((sampleTracker.enable_filter ("smooth")).gaze_filter =
        some (create_gaze_filter ("smooth")) ∧
      (sampleTracker.enable_filter ("smooth")).screen_filter =
        some (create_gaze_filter ("smooth")) ∧
      (sampleTracker.enable_filter ("smooth")).filter_enabled = true) ∧
     sampleTracker.process_frame sampleFrame =
      ((some (some ((create_gaze_filter ("balanced")).filter
                sampleFrame.inference.1 sampleFrame.inference.2).1.1,
              some ((create_gaze_filter ("balanced")).filter
                sampleFrame.inference.1 sampleFrame.inference.2).1.2),
        some (clampPoint sampleTracker.screen_width sampleTracker.screen_height
          ((create_gaze_filter ("balanced")).filter
            (sampleMapper.predict ((create_gaze_filter ("balanced")).filter
              sampleFrame.inference.1 sampleFrame.inference.2).1).1
            (sampleMapper.predict ((create_gaze_filter ("balanced")).filter
              sampleFrame.inference.1 sampleFrame.inference.2).1).2).1)),
       { sampleTracker with
          current_pitch := some ((create_gaze_filter ("balanced")).filter
            sampleFrame.inference.1 sampleFrame.inference.2).1.1
          current_yaw := some ((create_gaze_filter ("balanced")).filter
            sampleFrame.inference.1 sampleFrame.inference.2).1.2
          current_bbox := some (max 0 (10 : ℤ), max 0 (20 : ℤ),
                                min sampleFrame.width (110 : ℤ),
                                min sampleFrame.height (120 : ℤ))
          gaze_filter := some ((create_gaze_filter ("balanced")).filter
            sampleFrame.inference.1 sampleFrame.inference.2).2
          screen_filter := some ((create_gaze_filter ("balanced")).filter
            (sampleMapper.predict ((create_gaze_filter ("balanced")).filter
              sampleFrame.inference.1 sampleFrame.inference.2).1).1
            (sampleMapper.predict ((create_gaze_filter ("balanced")).filter
              sampleFrame.inference.1 sampleFrame.inference.2).1).2).2 })) :=
  ⟨rfl, rfl, rfl, rfl, rfl, rfl, by decide,
   process_frame_filter_pipeline_order sampleTracker sampleFrame
     (create_gaze_filter ("balanced")) (create_gaze_filter ("balanced"))
     sampleMapper ((10, 20, 110, 120) : ℤ × ℤ × ℤ × ℤ) (1 : ℚ) []
     ("smooth") rfl rfl rfl rfl rfl rfl (by decide)⟩

end EyeGaze
